import Mathlib

/-!
Verification of the federated cloud-storage aggregation backend
(`backend/app/services/{search_service,dropbox_service,one_drive_service,
integrations_service}.py`) against its natural-language specification.

The Python services are shallowly embedded as pure Lean functions:

* timestamps (`datetime.utcnow()`) are a `Nat` parameter `now`;
* outbound HTTP responses (token endpoint, provider listing pages) are
  explicit parameters of the embedded functions, and each function also
  returns the number of network calls it performed on that path;
* raised exceptions are `Except.error` carrying the Python message;
* the database session is an explicit `List Account` value threaded
  through the account-upsert functions;
* Python string truthiness (`if not s:`) is `strTruthy : Option String → Bool`.
-/

namespace Backend

/-- Python truthiness for an optional string field: `None` and `""` are
falsy, every non-empty string is truthy. -/
def strTruthy : Option String → Bool
  | none => false
  | some s => !(s == "")

/-- Python `str.strip()`: drop leading and trailing whitespace. -/
def pyStrip (s : String) : String :=
  ⟨((s.data.dropWhile Char.isWhitespace).reverse.dropWhile
      Char.isWhitespace).reverse⟩

/-- Python `str.lower()` (ASCII case folding suffices here). -/
def pyLower (s : String) : String := ⟨s.data.map Char.toLower⟩

/-- `app.models.external_account.ExternalAccount` (the SQLModel row; the
model module itself is not in the service sources, its fields are taken
from the constructors and attribute accesses in the three services and
from `tests/unit/test_external_account.py`).  `expires_at`, `created_at`
and `updated_at` are timestamps modelled as `Nat`; `extra_data` is an
opaque provider-metadata blob. -/
structure Account where
  user_id : String
  provider : String
  provider_account_id : Option String := none
  access_token : Option String := none
  refresh_token : Option String := none
  expires_at : Option Nat := none
  extra_data : Option String := none
  created_at : Nat := 0
  updated_at : Nat := 0
deriving Repr, DecidableEq

/-! ## SearchService (`search_service.py`) -/

/-- One normalized search hit after the per-provider leg tagged it:
`file["provider"] = <provider>` and `file["match_type"] = "both"`
(`search_service.py` lines 110-113, 142-145, 174-177).  The underlying
provider record is kept opaque. -/
structure TaggedFile where
  payload : String
  provider : String
  match_type : String
deriving Repr, DecidableEq

/-- Per-provider result of one search leg: the `{"files": ..., "total":
..., "error": ...}` dict built by `_search_dropbox` / `_search_one_drive`
/ `_search_google_drive`. -/
structure SearchOutcome where
  files : List TaggedFile
  total : Nat
  error : Option String
deriving Repr, DecidableEq

/-- The `results` mapping of `search_all_providers` with its three fixed
keys. -/
structure SearchResults where
  dropbox : SearchOutcome
  one_drive : SearchOutcome
  google_drive : SearchOutcome
deriving Repr, DecidableEq

/-- The full return value of `SearchService.search_all_providers`. -/
structure SearchResponse where
  query : String
  results : SearchResults
  total_files : Nat
deriving Repr, DecidableEq

/-- The body of `_search_dropbox` / `_search_one_drive` /
`_search_google_drive` (`search_service.py` lines 92-186): the underlying
provider search either returns a list of raw records (`Except.ok`) or
raises (`Except.error`); the leg tags each record with the provider name
and `match_type = "both"` and returns `{"files": files, "total":
len(files), "error": None}`, and its `except Exception` handler converts
a raised exception `e` into `{"files": [], "total": 0, "error": str(e)}`.
The `asyncio.gather(..., return_exceptions=True)` layer in
`search_all_providers` (lines 53-74) catches the same exceptions one
level up, so the two handlers collapse into this single conversion. -/
def legOutcome (provider : String) (raw : Except String (List String)) :
    SearchOutcome :=
  match raw with
  | .ok fs =>
      { files := fs.map (fun p => ⟨p, provider, "both"⟩)
        total := fs.length
        error := none }
  | .error e => { files := [], total := 0, error := some e }

/-- The all-empty outcome `{"files": [], "total": 0, "error": None}`
returned for every provider on the empty-query short-circuit
(`search_all_providers` lines 29-38). -/
def emptyOutcome : SearchOutcome := { files := [], total := 0, error := none }

/-- `SearchService.search_all_providers` (`search_service.py` lines
21-90).  Each provider's underlying search (`dropbox_service.search_files`
/ `one_drive_service.search_files` /
`google_drive_service.search_google_drive_files`) is a parameter mapping
the dispatched query string to either its record list or a raised
exception.  Returns the response together with the number of provider
adapter invocations performed: `0` on the empty/whitespace-query
short-circuit (the guard at line 29 runs before any task is created),
`3` otherwise.  `search_query.lower().strip()` at line 40 becomes
`pyStrip (pyLower q)`. -/
def search_all_providers (q : String)
    (dbx od gd : String → Except String (List String)) :
    SearchResponse × Nat :=
  if q = "" ∨ pyStrip q = "" then
    ({ query := q
       results := ⟨emptyOutcome, emptyOutcome, emptyOutcome⟩
       total_files := 0 }, 0)
  else
    let ql := pyStrip (pyLower q)
    let d := legOutcome "dropbox" (dbx ql)
    let o := legOutcome "one_drive" (od ql)
    let g := legOutcome "google_drive" (gd ql)
    ({ query := q
       results := ⟨d, o, g⟩
       total_files := d.total + o.total + g.total }, 3)

/-! ## Theorems for C1, C3, C4 -/

/-- C1: for every non-empty query, when a single provider's search leg
raises, `search_all_providers` still returns outcomes for all three
providers; the failing provider's outcome has `files = []`, `total = 0`
and a non-`None` error, and the other two providers' outcomes are exactly
what their own legs produced, unaffected by the failure.  The aggregator
itself is a total function, so it never raises because of a single
provider's failure. -/
theorem search_failure_isolation (q : String) (e : String)
    (dbx od gd : String → Except String (List String))
    (hq : ¬(q = "" ∨ pyStrip q = "")) :
    (let r := (search_all_providers q (fun _ => .error e) od gd).1
     r.results.dropbox = ⟨[], 0, some e⟩ ∧
     r.results.dropbox.error ≠ none ∧
     r.results.one_drive = legOutcome "one_drive" (od (pyStrip (pyLower q))) ∧
     r.results.google_drive = legOutcome "google_drive" (gd (pyStrip (pyLower q)))) ∧
    (let r := (search_all_providers q dbx (fun _ => .error e) gd).1
     r.results.one_drive = ⟨[], 0, some e⟩ ∧
     r.results.one_drive.error ≠ none ∧
     r.results.dropbox = legOutcome "dropbox" (dbx (pyStrip (pyLower q))) ∧
     r.results.google_drive = legOutcome "google_drive" (gd (pyStrip (pyLower q)))) ∧
    (let r := (search_all_providers q dbx od (fun _ => .error e)).1
     r.results.google_drive = ⟨[], 0, some e⟩ ∧
     r.results.google_drive.error ≠ none ∧
     r.results.dropbox = legOutcome "dropbox" (dbx (pyStrip (pyLower q))) ∧
     r.results.one_drive = legOutcome "one_drive" (od (pyStrip (pyLower q)))) := by
  refine ⟨?_, ?_, ?_⟩ <;>
    simp [search_all_providers, hq, legOutcome]

/-- Witness for `search_failure_isolation` at query `"report"`, error
`"boom"`, with the two healthy providers returning one record each. -/
theorem search_failure_isolation_witness :
    ¬(("report" : String) = "" ∨ pyStrip ("report" : String) = "") ∧
    (let r := (search_all_providers "report" (fun _ => .error "boom")
        (fun _ => .ok ["a"]) (fun _ => .ok ["b"])).1
     r.results.dropbox = ⟨[], 0, some "boom"⟩ ∧
     r.results.one_drive = legOutcome "one_drive" (.ok ["a"]) ∧
     r.results.google_drive = legOutcome "google_drive" (.ok ["b"])) := by
  have h : ¬(("report" : String) = "" ∨ pyStrip ("report" : String) = "") := by decide
  refine ⟨h, ?_⟩
  have := search_failure_isolation "report" "boom"
    (fun _ => .error "boom") (fun _ => .ok ["a"]) (fun _ => .ok ["b"]) h
  exact ⟨this.1.1, this.1.2.2.1, this.1.2.2.2⟩

/-- C3: for an empty or whitespace-only query, `search_all_providers`
returns the all-empty response structure — all three outcomes `{files :=
[], total := 0, error := none}` and `total_files = 0` — and performs zero
provider-adapter invocations, regardless of what the providers would
return. -/
theorem search_empty_query_short_circuit (q : String)
    (dbx od gd : String → Except String (List String))
    (hq : pyStrip q = "") :
    search_all_providers q dbx od gd =
      ({ query := q
         results := ⟨emptyOutcome, emptyOutcome, emptyOutcome⟩
         total_files := 0 }, 0) := by
  simp [search_all_providers, hq]

/-- Witness for `search_empty_query_short_circuit` at the whitespace-only
query `"   "`. -/
theorem search_empty_query_short_circuit_witness :
    pyStrip "   " = "" ∧
    search_all_providers "   " (fun _ => .ok ["a"]) (fun _ => .ok ["b"])
        (fun _ => .ok ["c"]) =
      ({ query := "   "
         results := ⟨emptyOutcome, emptyOutcome, emptyOutcome⟩
         total_files := 0 }, 0) := by
  have h : pyStrip "   " = "" := by decide
  exact ⟨h, search_empty_query_short_circuit "   " _ _ _ h⟩

/-- C4: in every response of `search_all_providers`, the top-level
`total_files` equals the arithmetic sum of the `total` fields of the
three per-provider outcomes. -/
theorem search_total_files_consistency (q : String)
    (dbx od gd : String → Except String (List String)) :
    ((search_all_providers q dbx od gd).1).total_files =
      ((search_all_providers q dbx od gd).1).results.dropbox.total +
      ((search_all_providers q dbx od gd).1).results.one_drive.total +
      ((search_all_providers q dbx od gd).1).results.google_drive.total := by
  by_cases h : q = "" ∨ pyStrip q = "" <;>
    simp [search_all_providers, h, emptyOutcome]

/-! ## The Google Drive search leg (`_search_google_drive` and
`IntegrationService`) -/

/-- The methods defined in the body of `IntegrationService`
(`integrations_service.py` lines 21-663), in source order. -/
def integrationServiceMethods : List String :=
  ["connect_account",
   "get_google_drive_auth_url",
   "exchange_google_drive_code",
   "connect_google_drive_with_tokens",
   "_get_google_user_info",
   "refresh_google_drive_token",
   "get_google_drive_account",
   "_ensure_valid_token",
   "upload_file_to_google_drive",
   "list_google_drive_files",
   "read_google_drive_file",
   "download_google_drive_file",
   "update_google_drive_file"]

/-- Python attribute lookup on an `IntegrationService` instance: a name
that is not a method of the class raises `AttributeError`. -/
def lookupIntegrationMethod (name : String) : Except String String :=
  if integrationServiceMethods.contains name then .ok name
  else .error ("AttributeError: type object IntegrationService has no attribute " ++ name)

/-- The underlying call performed by `_search_google_drive`
(`search_service.py` line 166):
`self.google_drive_service.search_google_drive_files(...)`.  The
attribute lookup happens before any argument is evaluated; if it fails
the `AttributeError` propagates to the leg's `except Exception` handler.
The `.ok` branch is unreachable because `IntegrationService` does not
define the method; it is mapped to the empty record list. -/
def search_google_drive_files_call : Except String (List String) :=
  (lookupIntegrationMethod "search_google_drive_files").map (fun _ => [])

/-- C2 (failing evaluation): with the Google Drive leg wired to the
actual `IntegrationService` attribute lookup, every non-empty federated
search yields a `google_drive` outcome whose `error` is the
`AttributeError` — never the native-search result with `error = none`
that the specification describes — regardless of the user's account
state or the other providers. -/
theorem google_drive_leg_always_attribute_error (q : String)
    (dbx od : String → Except String (List String))
    (hq : ¬(q = "" ∨ pyStrip q = "")) :
    lookupIntegrationMethod "search_google_drive_files" =
      .error "AttributeError: type object IntegrationService has no attribute search_google_drive_files" ∧
    (let r := (search_all_providers q dbx od
        (fun _ => search_google_drive_files_call)).1
     r.results.google_drive =
       ⟨[], 0, some "AttributeError: type object IntegrationService has no attribute search_google_drive_files"⟩ ∧
     r.results.google_drive.error ≠ none) := by
  constructor
  · rfl
  · simp [search_all_providers, hq, search_google_drive_files_call,
      lookupIntegrationMethod, integrationServiceMethods, legOutcome,
      Except.map]

/-- Witness for `google_drive_leg_always_attribute_error` at query
`"report"`. -/
theorem google_drive_leg_always_attribute_error_witness :
    ¬(("report" : String) = "" ∨ pyStrip ("report" : String) = "") ∧
    (let r := (search_all_providers "report" (fun _ => .ok ["a"])
        (fun _ => .ok ["b"]) (fun _ => search_google_drive_files_call)).1
     r.results.google_drive.error ≠ none) := by
  have h : ¬(("report" : String) = "" ∨ pyStrip ("report" : String) = "") := by
    decide
  exact ⟨h, (google_drive_leg_always_attribute_error "report"
    (fun _ => .ok ["a"]) (fun _ => .ok ["b"]) h).2.2⟩

/-! ## TokenLifecycle (`_ensure_valid_token` / token refresh, per provider) -/

/-- The OAuth client configuration read from `settings`
(`DROPBOX_CLIENT_ID`/`DROPBOX_CLIENT_SECRET`, `GOOGLE_CLIENT_ID`/
`GOOGLE_CLIENT_SECRET`). -/
structure OAuthSettings where
  client_id : Option String := none
  client_secret : Option String := none
deriving Repr, DecidableEq

/-- The provider token endpoint's HTTP response to the
`grant_type=refresh_token` POST: status code, raw text body (used in
error messages), and the parsed JSON fields the services read. -/
structure TokenResponse where
  status : Nat := 200
  body : String := ""
  access_token : Option String := none
  expires_in : Option Nat := none
  refresh_token : Option String := none
deriving Repr, DecidableEq

/-- `DropboxService.refresh_dropbox_token` (`dropbox_service.py` lines
134-196).  Returns the persisted account (or the raised message) plus the
number of POSTs to `https://api.dropbox.com/oauth2/token`.  The inner
`raise ValueError(f"Failed to refresh token: {error_detail}")` on a
non-200 status is itself caught by the function's own
`except Exception` clause and re-wrapped, hence the doubled prefix.
`expires_in` defaults to 14400; the response's `refresh_token` replaces
the stored one only when truthy (`token_response.get("refresh_token") or
account.refresh_token`). -/
def refresh_dropbox_token (st : OAuthSettings) (now : Nat)
    (resp : TokenResponse) (acct : Account) : Except String Account × Nat :=
  if !strTruthy acct.refresh_token then
    (.error "No refresh token available", 0)
  else if !strTruthy st.client_id || !strTruthy st.client_secret then
    (.error "Dropbox OAuth2 credentials not configured", 0)
  else if resp.status ≠ 200 then
    (.error ("Failed to refresh token: Failed to refresh token: " ++ resp.body), 1)
  else
    let expires_in := resp.expires_in.getD 14400
    let rt := if strTruthy resp.refresh_token then resp.refresh_token
              else acct.refresh_token
    (.ok { acct with
            access_token := resp.access_token
            refresh_token := rt
            expires_at := some (now + expires_in)
            updated_at := now }, 1)

/-- The expired-token path of `DropboxService._ensure_valid_token`
(`dropbox_service.py` lines 204-211). -/
def dropbox_ensure_expired_path (st : OAuthSettings) (now : Nat)
    (resp : TokenResponse) (acct : Account) :
    Except String (String × Account) × Nat :=
  if !strTruthy acct.refresh_token then
    (.error "No refresh token available", 0)
  else
    match refresh_dropbox_token st now resp acct with
    | (.error e, n) => (.error e, n)
    | (.ok a, n) =>
        if !strTruthy a.access_token then
          (.error "No access token available after refresh", n)
        else (.ok (a.access_token.getD "", a), n)

/-- `DropboxService._ensure_valid_token` (`dropbox_service.py` lines
198-211): if `expires_at` is present and strictly in the future, return
`account.access_token or ""` unchanged; otherwise require a refresh
token and refresh.  Returns the token, the persisted account state, and
the number of refresh-endpoint calls. -/
def dropbox_ensure_valid_token (st : OAuthSettings) (now : Nat)
    (resp : TokenResponse) (acct : Account) :
    Except String (String × Account) × Nat :=
  match acct.expires_at with
  | some t =>
      if now < t then (.ok (acct.access_token.getD "", acct), 0)
      else dropbox_ensure_expired_path st now resp acct
  | none => dropbox_ensure_expired_path st now resp acct

/-- `IntegrationService.refresh_google_drive_token`
(`integrations_service.py` lines 265-313).  `expires_in` defaults to
3600.  Unlike Dropbox, the stored `refresh_token` is never touched: a
rotated refresh token in the response is ignored. -/
def refresh_google_drive_token (st : OAuthSettings) (now : Nat)
    (resp : TokenResponse) (acct : Account) : Except String Account × Nat :=
  if !strTruthy acct.refresh_token then
    (.error "No refresh token available", 0)
  else if !strTruthy st.client_id || !strTruthy st.client_secret then
    (.error "Google OAuth2 credentials not configured", 0)
  else if resp.status ≠ 200 then
    (.error ("Failed to refresh token: " ++ resp.body), 1)
  else
    (.ok { acct with
            access_token := resp.access_token
            expires_at := some (now + resp.expires_in.getD 3600)
            updated_at := now }, 1)

/-- `IntegrationService._ensure_valid_token` (`integrations_service.py`
lines 337-350): a refresh is attempted only when `expires_at` is present
and `≤ now`; an absent `expires_at` skips the expiry branch entirely and
falls through to the `access_token` presence check. -/
def google_ensure_valid_token (st : OAuthSettings) (now : Nat)
    (resp : TokenResponse) (acct : Account) :
    Except String (String × Account) × Nat :=
  let step : Except String Account × Nat :=
    match acct.expires_at with
    | some t =>
        if t ≤ now then
          if strTruthy acct.refresh_token then
            refresh_google_drive_token st now resp acct
          else (.error "Access token expired and no refresh token available", 0)
        else (.ok acct, 0)
    | none => (.ok acct, 0)
  match step with
  | (.error e, n) => (.error e, n)
  | (.ok a, n) =>
      if !strTruthy a.access_token then (.error "No access token available", n)
      else (.ok (a.access_token.getD "", a), n)

/-- The not-fresh path of `OneDriveService._ensure_valid_token`
(`one_drive_service.py` lines 109-113): no refresh flow exists; with a
refresh token and an access token present the stale access token is
returned as-is. -/
def one_drive_ensure_expired_path (acct : Account) :
    Except String (String × Account) × Nat :=
  if !strTruthy acct.refresh_token then
    (.error "No refresh token available", 0)
  else if !strTruthy acct.access_token then
    (.error "No access token available", 0)
  else (.ok (acct.access_token.getD "", acct), 0)

/-- `OneDriveService._ensure_valid_token` (`one_drive_service.py` lines
104-113).  Performs no network call on any path. -/
def one_drive_ensure_valid_token (now : Nat) (acct : Account) :
    Except String (String × Account) × Nat :=
  match acct.expires_at with
  | some t =>
      if now < t then (.ok (acct.access_token.getD "", acct), 0)
      else one_drive_ensure_expired_path acct
  | none => one_drive_ensure_expired_path acct

/-- The freshness test shared by the Dropbox and OneDrive
`_ensure_valid_token` guards: `account.expires_at and account.expires_at >
datetime.utcnow()`. -/
def tokenFresh (acct : Account) (now : Nat) : Bool :=
  match acct.expires_at with
  | some t => now < t
  | none => false

/-! ## Theorems for C5 (token reuse) -/

/-- C5 counterexample: a Google Drive account whose `expires_at` is set
and strictly in the future but whose `access_token` is absent.  The
claim says `ensure_valid` returns `account.access_token` unchanged;
instead `IntegrationService._ensure_valid_token` raises
`"No access token available"`. -/
theorem token_reuse_counterexample :
    (let acct : Account :=
      { user_id := "u1", provider := "google_drive"
        refresh_token := some "rt", expires_at := some 100 }
     acct.expires_at = some 100 ∧ (0 : Nat) < 100 ∧
     google_ensure_valid_token
        { client_id := some "cid", client_secret := some "cs" } 0
        { status := 200 } acct =
       (.error "No access token available", 0)) := by
  exact ⟨rfl, by decide, rfl⟩

/-- C5 (amended): for each provider's `_ensure_valid_token`, given an
account whose `expires_at` is set and strictly in the future and whose
`access_token` is present and non-empty, the stored access token is
returned unchanged, with zero refresh-endpoint calls and no mutation of
the account. -/
theorem token_reuse (st : OAuthSettings) (resp : TokenResponse)
    (now t : Nat) (acct : Account) (tok : String)
    (hexp : acct.expires_at = some t) (hfut : now < t)
    (htok : acct.access_token = some tok) (hne : tok ≠ "") :
    dropbox_ensure_valid_token st now resp acct = (.ok (tok, acct), 0) ∧
    google_ensure_valid_token st now resp acct = (.ok (tok, acct), 0) ∧
    one_drive_ensure_valid_token now acct = (.ok (tok, acct), 0) := by
  have hle : ¬ t ≤ now := by omega
  refine ⟨?_, ?_, ?_⟩ <;>
    simp [dropbox_ensure_valid_token, google_ensure_valid_token,
      one_drive_ensure_valid_token, hexp, hfut, hle, htok, strTruthy, hne]

/-- Witness for `token_reuse`: an account expiring at time 100, queried
at time 0, with access token `"tok"`. -/
theorem token_reuse_witness :
    (let acct : Account :=
      { user_id := "u1", provider := "dropbox"
        access_token := some "tok", refresh_token := some "rt"
        expires_at := some 100 }
     dropbox_ensure_valid_token {} 0 {} acct = (.ok ("tok", acct), 0) ∧
     google_ensure_valid_token {} 0 {} acct = (.ok ("tok", acct), 0) ∧
     one_drive_ensure_valid_token 0 acct = (.ok ("tok", acct), 0)) := by
  exact token_reuse {} {} 0 100 _ "tok" rfl (by decide) rfl (by decide)

/-! ## Theorems for C6 (token refresh then reuse) -/

/-- C6 counterexample: a Google Drive account with no `expires_at`, a
refresh token present, and a stale access token.  The claim says an
account whose token is not valid ("expires_at absent or in the past")
gets exactly one OAuth2 refresh; instead
`IntegrationService._ensure_valid_token` performs zero refresh calls and
returns the old access token, even though the endpoint (were it called)
would hand out a fresh one. -/
theorem token_refresh_counterexample :
    (let acct : Account :=
      { user_id := "u1", provider := "google_drive"
        access_token := some "old", refresh_token := some "rt"
        expires_at := none }
     google_ensure_valid_token
        { client_id := some "cid", client_secret := some "cs" } 50
        { status := 200, access_token := some "new"
          expires_in := some 3600, refresh_token := some "rotated" } acct =
       (.ok ("old", acct), 0)) := by
  rfl

/-- The account state `refresh_dropbox_token` persists on success:
new `access_token` and `expires_at = now + expires_in` (default 14400),
and the rotated `refresh_token` when the endpoint returned a truthy one,
the old one otherwise. -/
def dropboxRefreshedAccount (resp : TokenResponse) (now : Nat)
    (acct : Account) : Account :=
  { acct with
      access_token := resp.access_token
      refresh_token := if strTruthy resp.refresh_token then
        resp.refresh_token else acct.refresh_token
      expires_at := some (now + resp.expires_in.getD 14400)
      updated_at := now }

/-- The account state `refresh_google_drive_token` persists on success:
new `access_token` and `expires_at = now + expires_in` (default 3600);
the stored `refresh_token` is left untouched. -/
def googleRefreshedAccount (resp : TokenResponse) (now : Nat)
    (acct : Account) : Account :=
  { acct with
      access_token := resp.access_token
      expires_at := some (now + resp.expires_in.getD 3600)
      updated_at := now }

/-- C6 (amended): for an account whose `expires_at` is present and `≤
now` (for Dropbox, also when `expires_at` is absent — `tokenFresh =
false` covers both) and whose refresh_token is present, with OAuth
credentials configured and the token endpoint answering 200 with a
non-empty access token and a positive lifetime, `_ensure_valid_token`
performs exactly one refresh POST, persists the new `access_token` and
`expires_at = now + expires_in` (Dropbox also persists a rotated
`refresh_token`; Google Drive keeps its old `refresh_token` unchanged
even when the endpoint rotated it), and returns the new access token; an
immediately following call performs no further refresh. -/
theorem token_refresh_then_reuse (st : OAuthSettings) (resp : TokenResponse)
    (now tG : Nat) (acctD acctG : Account) (newTok : String)
    (hD : tokenFresh acctD now = false)
    (hDrt : strTruthy acctD.refresh_token = true)
    (hGe : acctG.expires_at = some tG) (hGt : tG ≤ now)
    (hGrt : strTruthy acctG.refresh_token = true)
    (hcid : strTruthy st.client_id = true)
    (hcs : strTruthy st.client_secret = true)
    (hst : resp.status = 200)
    (hat : resp.access_token = some newTok) (hne : newTok ≠ "")
    (hei : ∀ k, resp.expires_in = some k → 0 < k) :
    dropbox_ensure_valid_token st now resp acctD =
      (.ok (newTok, dropboxRefreshedAccount resp now acctD), 1) ∧
    (∀ resp2, dropbox_ensure_valid_token st now resp2
        (dropboxRefreshedAccount resp now acctD) =
      (.ok (newTok, dropboxRefreshedAccount resp now acctD), 0)) ∧
    google_ensure_valid_token st now resp acctG =
      (.ok (newTok, googleRefreshedAccount resp now acctG), 1) ∧
    (googleRefreshedAccount resp now acctG).refresh_token =
      acctG.refresh_token ∧
    (∀ resp2, google_ensure_valid_token st now resp2
        (googleRefreshedAccount resp now acctG) =
      (.ok (newTok, googleRefreshedAccount resp now acctG), 0)) := by
  have h14 : 0 < resp.expires_in.getD 14400 := by
    cases hk : resp.expires_in with
    | none => simp
    | some k => simpa using hei k hk
  have h36 : 0 < resp.expires_in.getD 3600 := by
    cases hk : resp.expires_in with
    | none => simp
    | some k => simpa using hei k hk
  have hTok : strTruthy (some newTok) = true := by
    simp [strTruthy, hne]
  have hrefreshD : refresh_dropbox_token st now resp acctD =
      (.ok (dropboxRefreshedAccount resp now acctD), 1) := by
    simp [refresh_dropbox_token, dropboxRefreshedAccount, hDrt, hcid, hcs, hst]
  have hexpD : dropbox_ensure_expired_path st now resp acctD =
      (.ok (newTok, dropboxRefreshedAccount resp now acctD), 1) := by
    simp [dropbox_ensure_expired_path, hDrt, hrefreshD,
      dropboxRefreshedAccount, hat, hTok]
  refine ⟨?_, ?_, ?_, rfl, ?_⟩
  · cases hE : acctD.expires_at with
    | none => simpa [dropbox_ensure_valid_token, hE] using hexpD
    | some t =>
        have hnl : ¬ now < t := by
          simpa [tokenFresh, hE] using hD
        simpa [dropbox_ensure_valid_token, hE, hnl] using hexpD
  · intro resp2
    simp [dropbox_ensure_valid_token, dropboxRefreshedAccount, hat,
      Nat.lt_add_of_pos_right h14]
  · simp [google_ensure_valid_token, hGe, hGt, hGrt,
      refresh_google_drive_token, googleRefreshedAccount, hcid, hcs, hst,
      hat, hTok]
  · intro resp2
    have hlt : ¬ now + resp.expires_in.getD 3600 ≤ now := by omega
    simp [google_ensure_valid_token, googleRefreshedAccount, hat, hTok, hlt]

/-- Witness for `token_refresh_then_reuse`: both accounts expired at time
10, queried at time 50, endpoint rotating the refresh token and
returning `"new"` with a 3600-second lifetime. -/
theorem token_refresh_then_reuse_witness :
    dropbox_ensure_valid_token
        { client_id := some "cid", client_secret := some "cs" } 50
        { status := 200, access_token := some "new"
          expires_in := some 3600, refresh_token := some "rotated" }
        { user_id := "u1", provider := "dropbox"
          access_token := some "old", refresh_token := some "rt"
          expires_at := some 10 } =
      (.ok ("new",
        { user_id := "u1", provider := "dropbox"
          access_token := some "new", refresh_token := some "rotated"
          expires_at := some 3650, updated_at := 50 }), 1) ∧
    google_ensure_valid_token
        { client_id := some "cid", client_secret := some "cs" } 50
        { status := 200, access_token := some "new"
          expires_in := some 3600, refresh_token := some "rotated" }
        { user_id := "u1", provider := "google_drive"
          access_token := some "old", refresh_token := some "rt"
          expires_at := some 10 } =
      (.ok ("new",
        { user_id := "u1", provider := "google_drive"
          access_token := some "new", refresh_token := some "rt"
          expires_at := some 3650, updated_at := 50 }), 1) := by
  have h := token_refresh_then_reuse
    { client_id := some "cid", client_secret := some "cs" }
    { status := 200, access_token := some "new"
      expires_in := some 3600, refresh_token := some "rotated" }
    50 10
    { user_id := "u1", provider := "dropbox"
      access_token := some "old", refresh_token := some "rt"
      expires_at := some 10 }
    { user_id := "u1", provider := "google_drive"
      access_token := some "old", refresh_token := some "rt"
      expires_at := some 10 }
    "new" (by decide) (by decide) rfl (by decide) (by decide) (by decide)
    (by decide) rfl rfl (by decide) (by intro k hk; cases hk; decide)
  refine ⟨?_, ?_⟩
  · rw [h.1]; rfl
  · rw [h.2.2.1]; rfl

/-! ## Theorems for C7 (auth-expired failure surfaces per provider) -/

/-- The account-resolution and token steps of
`DropboxService.search_files` (`dropbox_service.py` lines 673-678): no
stored account raises `"Dropbox account not connected"`, then
`_ensure_valid_token` runs, and only then does the provider API
interaction (given here as `api`) happen.  Any raised error propagates
to the search leg. -/
def dropbox_search_pipeline (st : OAuthSettings) (now : Nat)
    (resp : TokenResponse) (acct : Option Account)
    (api : Except String (List String)) : Except String (List String) :=
  match acct with
  | none => .error "Dropbox account not connected"
  | some a =>
      match (dropbox_ensure_valid_token st now resp a).1 with
      | .error e => .error e
      | .ok _ => api

/-- C7 counterexample: a Google Drive account with `expires_at` absent,
no refresh token, and a stored access token.  The claim says every
provider's `ensure_valid` fails when the token is "expired (or missing)"
with no refresh token; instead `IntegrationService._ensure_valid_token`
returns the stored token with no error at all. -/
theorem auth_expired_counterexample :
    (let acct : Account :=
      { user_id := "u1", provider := "google_drive"
        access_token := some "stale", refresh_token := none
        expires_at := none }
     google_ensure_valid_token
        { client_id := some "cid", client_secret := some "cs" } 50
        { status := 200 } acct = (.ok ("stale", acct), 0)) := by
  rfl

/-- C7 (amended): for an account with no usable refresh token, Dropbox's
and OneDrive's `_ensure_valid_token` fail with `"No refresh token
available"` whenever `expires_at` is absent or not in the future, and
Google Drive's fails with `"Access token expired and no refresh token
available"` when `expires_at` is present and `≤ now` (with `expires_at`
absent, Google Drive returns the stored access token instead of
failing); and such a per-provider failure surfaces in the aggregated
search response as that provider's own error outcome, leaving the other
providers' outcomes untouched and never raising past the aggregator. -/
theorem auth_expired_per_provider_failure :
    (∀ (st : OAuthSettings) (resp : TokenResponse) (now : Nat)
        (acct : Account), tokenFresh acct now = false →
      strTruthy acct.refresh_token = false →
      dropbox_ensure_valid_token st now resp acct =
        (.error "No refresh token available", 0)) ∧
    (∀ (now : Nat) (acct : Account), tokenFresh acct now = false →
      strTruthy acct.refresh_token = false →
      one_drive_ensure_valid_token now acct =
        (.error "No refresh token available", 0)) ∧
    (∀ (st : OAuthSettings) (resp : TokenResponse) (now t : Nat)
        (acct : Account), acct.expires_at = some t → t ≤ now →
      strTruthy acct.refresh_token = false →
      google_ensure_valid_token st now resp acct =
        (.error "Access token expired and no refresh token available", 0)) ∧
    (∀ (q : String) (st : OAuthSettings) (resp : TokenResponse)
        (now : Nat) (acct : Account)
        (api : Except String (List String))
        (od gd : String → Except String (List String)),
      ¬(q = "" ∨ pyStrip q = "") → tokenFresh acct now = false →
      strTruthy acct.refresh_token = false →
      (let r := (search_all_providers q
          (fun _ => dropbox_search_pipeline st now resp (some acct) api)
          od gd).1
       r.results.dropbox = ⟨[], 0, some "No refresh token available"⟩ ∧
       r.results.one_drive = legOutcome "one_drive" (od (pyStrip (pyLower q))) ∧
       r.results.google_drive = legOutcome "google_drive" (gd (pyStrip (pyLower q))))) := by
  have hD : ∀ (st : OAuthSettings) (resp : TokenResponse) (now : Nat)
      (acct : Account), tokenFresh acct now = false →
      strTruthy acct.refresh_token = false →
      dropbox_ensure_valid_token st now resp acct =
        (.error "No refresh token available", 0) := by
    intro st resp now acct hfresh hrt
    cases hE : acct.expires_at with
    | none =>
        simp [dropbox_ensure_valid_token, hE, dropbox_ensure_expired_path, hrt]
    | some t =>
        have hnl : ¬ now < t := by simpa [tokenFresh, hE] using hfresh
        simp [dropbox_ensure_valid_token, hE, hnl,
          dropbox_ensure_expired_path, hrt]
  refine ⟨hD, ?_, ?_, ?_⟩
  · intro now acct hfresh hrt
    cases hE : acct.expires_at with
    | none =>
        simp [one_drive_ensure_valid_token, hE, one_drive_ensure_expired_path, hrt]
    | some t =>
        have hnl : ¬ now < t := by simpa [tokenFresh, hE] using hfresh
        simp [one_drive_ensure_valid_token, hE, hnl,
          one_drive_ensure_expired_path, hrt]
  · intro st resp now t acct hE ht hrt
    simp [google_ensure_valid_token, hE, ht, hrt]
  · intro q st resp now acct api od gd hq hfresh hrt
    have hpipe : dropbox_search_pipeline st now resp (some acct) api =
        .error "No refresh token available" := by
      simp [dropbox_search_pipeline, hD st resp now acct hfresh hrt]
    simp [search_all_providers, hq, hpipe, legOutcome]

/-- Witness for `auth_expired_per_provider_failure`: an account expired
at time 10, queried at time 50, with no refresh token, fed through the
federated search at query `"report"`. -/
theorem auth_expired_per_provider_failure_witness :
    (let acct : Account :=
      { user_id := "u1", provider := "dropbox"
        access_token := some "stale", refresh_token := none
        expires_at := some 10 }
     dropbox_ensure_valid_token {} 50 {} acct =
        (.error "No refresh token available", 0) ∧
     one_drive_ensure_valid_token 50 acct =
        (.error "No refresh token available", 0) ∧
     google_ensure_valid_token {} 50 {} acct =
        (.error "Access token expired and no refresh token available", 0) ∧
     (search_all_providers "report"
        (fun _ => dropbox_search_pipeline {} 50 {} (some acct) (.ok ["a"]))
        (fun _ => .ok ["b"]) (fun _ => .ok ["c"])).1.results.dropbox =
       ⟨[], 0, some "No refresh token available"⟩) := by
  have h := auth_expired_per_provider_failure
  refine ⟨h.1 {} {} 50 _ (by decide) (by decide),
    h.2.1 50 _ (by decide) (by decide),
    h.2.2.1 {} {} 50 10 _ rfl (by decide) (by decide),
    (h.2.2.2 "report" {} {} 50 _ (.ok ["a"])
      (fun _ => .ok ["b"]) (fun _ => .ok ["c"])
      (by decide) (by decide) (by decide)).1⟩

/-! ## Pagination (`get_files_for_namespace`, `get_files_for_tenant`) -/

/-- One entry of a Dropbox `files_list_folder` page, with the attributes
`process_entries` reads (`dropbox_service.py` lines 436-464).  `isFile`
models `isinstance(entry, FileMetadata)`; the file-only attributes carry
their SDK values (the `client_modified`/`server_modified` ISO strings are
kept opaque). -/
structure DbxEntry where
  id : String
  name : String
  path_lower : Option String := none
  path_display : Option String := none
  isFile : Bool := true
  size : Nat := 0
  rev : String := ""
  content_hash : Option String := none
  client_modified : Option String := none
  server_modified : Option String := none
deriving Repr, DecidableEq

/-- The dict `process_entries` appends to `all_files` for one entry:
base keys plus, for files only, `size`/`rev`/`content_hash`/
`client_modified`/`server_modified`. -/
structure DbxFileData where
  id : String
  name : String
  path_lower : Option String
  path_display : Option String
  tag : String
  size : Option Nat
  rev : Option String
  content_hash : Option String
  client_modified : Option String
  server_modified : Option String
deriving Repr, DecidableEq

/-- The body of `process_entries` for one entry (`dropbox_service.py`
lines 436-464). -/
def dbxProcessEntry (e : DbxEntry) : DbxFileData :=
  if e.isFile then
    { id := e.id, name := e.name, path_lower := e.path_lower
      path_display := e.path_display, tag := "file", size := some e.size
      rev := some e.rev, content_hash := e.content_hash
      client_modified := e.client_modified
      server_modified := e.server_modified }
  else
    { id := e.id, name := e.name, path_lower := e.path_lower
      path_display := e.path_display, tag := "folder", size := none
      rev := none, content_hash := none, client_modified := none
      server_modified := none }

/-- One `ListFolderResult` of the Dropbox SDK as the loop reads it:
`entries` and `has_more` (the opaque `cursor` is modelled by the mocked
server handing out its pages in order). -/
structure ListFolderResult where
  entries : List DbxEntry
  has_more : Bool
deriving Repr, DecidableEq

/-- The pagination loop of `DropboxService.get_files_for_namespace`
(`dropbox_service.py` lines 427-474): process the first
`files_list_folder` page, then `while result.has_more:` call
`files_list_folder_continue(result.cursor)` and process that page.  The
mocked server is the list of pages its cursor chain would produce;
returns the accumulated `all_files` together with the number of
`files_list_folder_continue` calls. -/
def get_files_for_namespace_pages :
    List ListFolderResult → List DbxFileData × Nat
  | [] => ([], 0)
  | r :: rest =>
      let recs := r.entries.map dbxProcessEntry
      if r.has_more then
        let (more, calls) := get_files_for_namespace_pages rest
        (recs ++ more, calls + 1)
      else (recs, 0)

/-- A well-formed mocked page sequence: every page except the last
reports `has_more = true` and the last reports `has_more = false`. -/
def dbxPagesWF : List ListFolderResult → Bool
  | [] => true
  | [r] => !r.has_more
  | r :: rest => r.has_more && dbxPagesWF rest

mutual

/-- A mocked OneDrive drive as `get_files_for_tenant` walks it
(`one_drive_service.py` lines 204-241): an item is a file or a folder;
a folder's children arrive in pages, each page carrying its items and
whether the response had an `@odata.nextLink`. -/
inductive OdTree where
  | file (id : String)
  | folder (id : String) (pages : OdPages)

/-- The page chain of one folder's `children` listing. -/
inductive OdPages where
  | nil
  | page (hasNext : Bool) (items : OdItems) (rest : OdPages)

/-- The items of one page. -/
inductive OdItems where
  | nil
  | cons (item : OdTree) (rest : OdItems)

end

mutual

/-- The `for item in items:` body of `get_files_recursive`
(`one_drive_service.py` lines 226-232): append the item to `all_files`,
and if it is a folder recurse into it immediately (its descendants land
right after it, before the next sibling).  Returns the appended ids and
the number of `@odata.nextLink` continuation fetches performed. -/
def odWalkItems : OdItems → List String × Nat
  | .nil => ([], 0)
  | .cons (.file i) rest =>
      let (ys, c) := odWalkItems rest
      (i :: ys, c)
  | .cons (.folder i pages) rest =>
      let (xs, c1) := odWalkPages pages
      let (ys, c2) := odWalkItems rest
      (i :: (xs ++ ys), c1 + c2)

/-- The `while current_url:` page loop of `get_files_recursive`
(`one_drive_service.py` lines 214-237): process the current page's
items, then follow `data.get("@odata.nextLink")` while present. -/
def odWalkPages : OdPages → List String × Nat
  | .nil => ([], 0)
  | .page hasNext items rest =>
      let (xs, c1) := odWalkItems items
      if hasNext then
        let (ys, c2) := odWalkPages rest
        (xs ++ ys, c1 + c2 + 1)
      else (xs, c1)

end

mutual

/-- Specification-side flattening: every item of every page, in
depth-first order, ignoring the pagination flags entirely. -/
def odFlattenItems : OdItems → List String
  | .nil => []
  | .cons (.file i) rest => i :: odFlattenItems rest
  | .cons (.folder i pages) rest =>
      i :: (odFlattenPages pages ++ odFlattenItems rest)

/-- Specification-side flattening of a page chain. -/
def odFlattenPages : OdPages → List String
  | .nil => []
  | .page _ items rest => odFlattenItems items ++ odFlattenPages rest

end

mutual

/-- Specification-side count of next-page links in a subtree. -/
def odNextCountItems : OdItems → Nat
  | .nil => 0
  | .cons (.file _) rest => odNextCountItems rest
  | .cons (.folder _ pages) rest =>
      odNextCountPages pages + odNextCountItems rest

/-- Specification-side count of next-page links in a page chain: one per
page whose response carried an `@odata.nextLink`. -/
def odNextCountPages : OdPages → Nat
  | .nil => 0
  | .page hasNext items rest =>
      (if hasNext then 1 else 0) + odNextCountItems items + odNextCountPages rest

end

/-- Whether a further page follows (`@odata.nextLink` must be present
exactly on the pages that have one). -/
def OdPages.nonempty : OdPages → Bool
  | .nil => false
  | .page _ _ _ => true

mutual

/-- A well-formed mocked drive: a page reports `hasNext = true` exactly
when another page follows it, recursively in every folder. -/
def odWFItems : OdItems → Bool
  | .nil => true
  | .cons (.file _) rest => odWFItems rest
  | .cons (.folder _ pages) rest => odWFPages pages && odWFItems rest

/-- Well-formedness of a page chain. -/
def odWFPages : OdPages → Bool
  | .nil => true
  | .page hasNext items rest =>
      (hasNext == rest.nonempty) && (odWFItems items && odWFPages rest)

end

mutual

/-- On a well-formed drive the item walker returns exactly the flattened
item sequence, counting one fetch per next-page link. -/
theorem odWalkItems_eq : ∀ its : OdItems, odWFItems its = true →
    odWalkItems its = (odFlattenItems its, odNextCountItems its)
  | .nil, _ => rfl
  | .cons (.file i) rest, h => by
      have ih := odWalkItems_eq rest (by simpa [odWFItems] using h)
      simp [odWalkItems, odFlattenItems, odNextCountItems, ih]
  | .cons (.folder i pages) rest, h => by
      have h' : odWFPages pages = true ∧ odWFItems rest = true := by
        simpa [odWFItems] using h
      have ih1 := odWalkPages_eq pages h'.1
      have ih2 := odWalkItems_eq rest h'.2
      simp [odWalkItems, odFlattenItems, odNextCountItems, ih1, ih2]

/-- On a well-formed page chain the page loop returns exactly the
concatenation of all pages' items, counting one fetch per next-page
link. -/
theorem odWalkPages_eq : ∀ ps : OdPages, odWFPages ps = true →
    odWalkPages ps = (odFlattenPages ps, odNextCountPages ps)
  | .nil, _ => rfl
  | .page hasNext items rest, h => by
      have hred : ((hasNext == rest.nonempty) &&
          (odWFItems items && odWFPages rest)) = true := h
      have h' : (hasNext == rest.nonempty) = true ∧
          odWFItems items = true ∧ odWFPages rest = true := by
        simpa using hred
      have ih1 := odWalkItems_eq items h'.2.1
      have ih2 := odWalkPages_eq rest h'.2.2
      cases rest with
      | nil =>
          have hn : hasNext = false := by
            simpa [OdPages.nonempty] using h'.1
          subst hn
          have e1 : odWalkPages (.page false items .nil) =
              ((odWalkItems items).1, (odWalkItems items).2) := rfl
          have e2 : odFlattenPages (.page false items .nil) =
              odFlattenItems items ++ [] := rfl
          have e3 : odNextCountPages (.page false items .nil) =
              0 + odNextCountItems items + 0 := rfl
          rw [e1, ih1, e2, e3]
          simp
      | page h2 its2 rest2 =>
          have hn : hasNext = true := by
            simpa [OdPages.nonempty] using h'.1
          subst hn
          have e1 : odWalkPages (.page true items (OdPages.page h2 its2 rest2)) =
              ((odWalkItems items).1 ++ (odWalkPages (OdPages.page h2 its2 rest2)).1,
               (odWalkItems items).2 + (odWalkPages (OdPages.page h2 its2 rest2)).2 + 1) := rfl
          have e2 : odFlattenPages (.page true items (OdPages.page h2 its2 rest2)) =
              odFlattenItems items ++ odFlattenPages (OdPages.page h2 its2 rest2) := rfl
          have e3 : odNextCountPages (.page true items (OdPages.page h2 its2 rest2)) =
              1 + odNextCountItems items + odNextCountPages (OdPages.page h2 its2 rest2) := rfl
          rw [e1, ih1, ih2, e2, e3, Prod.ext_iff]
          refine ⟨by simp, by simp; omega⟩

end


/-- Helper for the Dropbox half of the pagination claim: on a
well-formed page sequence the `has_more` loop returns the concatenation
of all pages' processed entries, with one `files_list_folder_continue`
call per page after the first. -/
theorem dbx_pages_exhaustion :
    ∀ pages : List ListFolderResult, pages ≠ [] → dbxPagesWF pages = true →
      get_files_for_namespace_pages pages =
        ((pages.map (fun p => p.entries.map dbxProcessEntry)).flatten,
         pages.length - 1) := by
  intro pages
  induction pages with
  | nil => intro h; exact absurd rfl h
  | cons r rest ih =>
      intro _ hwf
      cases rest with
      | nil =>
          have hr : r.has_more = false := by simpa [dbxPagesWF] using hwf
          simp [get_files_for_namespace_pages, hr]
      | cons r2 rest2 =>
          have hr : r.has_more = true ∧ dbxPagesWF (r2 :: rest2) = true := by
            simpa [dbxPagesWF] using hwf
          have ihr := ih (by simp) hr.2
          have e : get_files_for_namespace_pages (r :: r2 :: rest2) =
              (if r.has_more then
                (r.entries.map dbxProcessEntry ++
                  (get_files_for_namespace_pages (r2 :: rest2)).1,
                 (get_files_for_namespace_pages (r2 :: rest2)).2 + 1)
               else (r.entries.map dbxProcessEntry, 0)) := rfl
          rw [e, hr.1]
          simp [ihr, Prod.ext_iff]

/-- C8: for every Dropbox or OneDrive listing over a well-formed mocked
page sequence, all pagination cursors are followed until none remains
and the returned sequence is exactly the concatenation of all pages'
items: Dropbox's `get_files_for_namespace` loop returns every page's
processed entries with `pages - 1` continuation calls, and OneDrive's
`get_files_for_tenant` walker returns the full depth-first flattening
with one fetch per `@odata.nextLink`. -/
theorem pagination_exhaustion :
    (∀ pages : List ListFolderResult, pages ≠ [] → dbxPagesWF pages = true →
      get_files_for_namespace_pages pages =
        ((pages.map (fun p => p.entries.map dbxProcessEntry)).flatten,
         pages.length - 1)) ∧
    (∀ ps : OdPages, odWFPages ps = true →
      odWalkPages ps = (odFlattenPages ps, odNextCountPages ps)) :=
  ⟨dbx_pages_exhaustion, odWalkPages_eq⟩

/-- Witness for `pagination_exhaustion`: three pages of two items each,
for both providers; exactly six records come back and exactly two
continuation calls are made. -/
theorem pagination_exhaustion_witness :
    (get_files_for_namespace_pages
        [⟨[{ id := "1", name := "a" }, { id := "2", name := "b" }], true⟩,
         ⟨[{ id := "3", name := "c" }, { id := "4", name := "d" }], true⟩,
         ⟨[{ id := "5", name := "e" }, { id := "6", name := "f" }], false⟩]).1.length = 6 ∧
    (get_files_for_namespace_pages
        [⟨[{ id := "1", name := "a" }, { id := "2", name := "b" }], true⟩,
         ⟨[{ id := "3", name := "c" }, { id := "4", name := "d" }], true⟩,
         ⟨[{ id := "5", name := "e" }, { id := "6", name := "f" }], false⟩]).2 = 2 ∧
    odWalkPages
        (.page true (.cons (.file "1") (.cons (.file "2") .nil))
          (.page true (.cons (.file "3") (.cons (.file "4") .nil))
            (.page false (.cons (.file "5") (.cons (.file "6") .nil)) .nil))) =
      (["1", "2", "3", "4", "5", "6"], 2) := by
  have hd := pagination_exhaustion.1
    [⟨[{ id := "1", name := "a" }, { id := "2", name := "b" }], true⟩,
     ⟨[{ id := "3", name := "c" }, { id := "4", name := "d" }], true⟩,
     ⟨[{ id := "5", name := "e" }, { id := "6", name := "f" }], false⟩]
    (by simp) (by rfl)
  have ho := pagination_exhaustion.2
    (.page true (.cons (.file "1") (.cons (.file "2") .nil))
      (.page true (.cons (.file "3") (.cons (.file "4") .nil))
        (.page false (.cons (.file "5") (.cons (.file "6") .nil)) .nil)))
    (by rfl)
  refine ⟨?_, ?_, ?_⟩
  · rw [hd]; rfl
  · rw [hd]; rfl
  · rw [ho]; rfl

/-! ## Dropbox namespace classification (`get_files_for_namespace`,
lines 388-423, and `_get_dbx_with_namespace`, lines 560-564) -/

/-- The namespace-type resolution step of
`DropboxService.get_files_for_namespace` (`dropbox_service.py` lines
401-416): when `namespace_type` is not pre-tagged (is `None`), call
`users_get_current_account` — modelled as the `currentAccount` parameter
carrying the account id or the raised exception — and classify
`"personal"` exactly when the namespace id equals the current account's
own id, `"team"` for any other id, defaulting to `"team"` when the
lookup raises.  Returns the classification together with the number of
`users_get_current_account` calls made. -/
def classify_namespace (currentAccount : Except String String)
    (namespace_id : String) (namespace_type : Option String) :
    String × Nat :=
  match namespace_type with
  | some t => (t, 0)
  | none =>
      match currentAccount with
      | .ok accountId =>
          (if namespace_id == accountId then "personal" else "team", 1)
      | .error _ => ("team", 1)

/-- The client-selection step (`dropbox_service.py` lines 418-423
together with `_get_dbx_with_namespace` lines 560-564): a `"personal"`
classification uses a plain client (no `Dropbox-API-Path-Root` header);
any other classification includes the header carrying the namespace
id. -/
def namespace_header (namespace_type : String) (namespace_id : String) :
    Option String :=
  if namespace_type == "personal" then none else some namespace_id

/-- C9: when the namespace type is not pre-tagged, the adapter performs
exactly one "get current account" call and classifies the namespace
`personal` exactly when its id equals the current account's own id,
`team` for any other id, and `team` when the account lookup fails; the
classification controls the `Dropbox-API-Path-Root` header — omitted for
`personal`, included (with the namespace id) for `team`. -/
theorem namespace_classification (nsid accId e : String) :
    ((classify_namespace (.ok accId) nsid none).2 = 1) ∧
    ((classify_namespace (.error e) nsid none).2 = 1) ∧
    (nsid = accId → classify_namespace (.ok accId) nsid none = ("personal", 1)) ∧
    (nsid ≠ accId → classify_namespace (.ok accId) nsid none = ("team", 1)) ∧
    (classify_namespace (.error e) nsid none = ("team", 1)) ∧
    (nsid = accId →
      namespace_header (classify_namespace (.ok accId) nsid none).1 nsid = none) ∧
    (nsid ≠ accId →
      namespace_header (classify_namespace (.ok accId) nsid none).1 nsid = some nsid) ∧
    (namespace_header (classify_namespace (.error e) nsid none).1 nsid = some nsid) := by
  refine ⟨?_, rfl, ?_, ?_, rfl, ?_, ?_, ?_⟩
  · simp [classify_namespace]
  · intro h; simp [classify_namespace, h]
  · intro h; simp [classify_namespace, h]
  · intro h; simp [classify_namespace, namespace_header, h]
  · intro h; simp [classify_namespace, namespace_header, h]
  · simp [classify_namespace, namespace_header]

/-- Witness for `namespace_classification`: the namespace id matching
the current account id classifies `personal` with no header; a different
id classifies `team` with the header present. -/
theorem namespace_classification_witness :
    classify_namespace (.ok "dbid:acc") "dbid:acc" none = ("personal", 1) ∧
    classify_namespace (.ok "dbid:acc") "ns:42" none = ("team", 1) ∧
    namespace_header
      (classify_namespace (.ok "dbid:acc") "ns:42" none).1 "ns:42" = some "ns:42" := by
  refine ⟨(namespace_classification "dbid:acc" "dbid:acc" "x").2.2.1 rfl,
    (namespace_classification "ns:42" "dbid:acc" "x").2.2.2.1 (by decide),
    (namespace_classification "ns:42" "dbid:acc" "x").2.2.2.2.2.2.1 (by decide)⟩

/-! ## Account connect operations (upsert semantics) -/

/-- Whether a stored row belongs to the `(user_id, provider)` pair — the
`where` clause of the `select(ExternalAccount)` statements. -/
def accountKey (uid prov : String) (a : Account) : Bool :=
  a.user_id == uid && a.provider == prov

/-- `session.exec(select(...).where(user_id == ..., provider ==
...)).first()`: the first stored row for the pair. -/
def findAccount (db : List Account) (uid prov : String) : Option Account :=
  db.find? (accountKey uid prov)

/-- Committing an in-place update of the first row matching the pair
(the ORM mutates the selected row and commits). -/
def updateFirst (db : List Account) (uid prov : String) (a2 : Account) :
    List Account :=
  match db with
  | [] => []
  | a :: rest =>
      if accountKey uid prov a then a2 :: rest
      else a :: updateFirst rest uid prov a2

/-- The number of stored rows for the `(user_id, provider)` pair. -/
def countAccounts (db : List Account) (uid prov : String) : Nat :=
  (db.filter (accountKey uid prov)).length

/-- `IntegrationService.connect_account` (`integrations_service.py`
lines 22-51): constructs a new `ExternalAccount` and `session.add`s it
unconditionally — there is no existing-row lookup. -/
def connect_account (now : Nat) (uid prov : String)
    (provider_account_id access_token refresh_token extra_data :
      Option String) (db : List Account) : Account × List Account :=
  let a : Account :=
    { user_id := uid, provider := prov
      provider_account_id := provider_account_id
      access_token := access_token, refresh_token := refresh_token
      extra_data := extra_data, created_at := now, updated_at := now }
  (a, db ++ [a])

/-- The shared select-first / update-else-insert shape of the three
provider token-connect functions. -/
def upsert_account (db : List Account) (uid prov : String)
    (update : Account → Account) (fresh : Account) :
    Account × List Account :=
  match findAccount db uid prov with
  | some existing =>
      let a2 := update existing
      (a2, updateFirst db uid prov a2)
  | none => (fresh, db ++ [fresh])

/-- The in-place update `connect_dropbox_with_tokens` applies to an
existing row (`dropbox_service.py` lines 73-84): `access_token`,
`refresh_token` (overwritten unconditionally, even with `None`),
`expires_at`, `provider_account_id`, `extra_data` and `updated_at` are
all overwritten. -/
def dropboxConnectUpdate (now : Nat) (access_token : String)
    (refresh_token : Option String) (expires_at : Option Nat)
    (provider_account_id : Option String) (extra_data : Option String)
    (existing : Account) : Account :=
  { existing with
      access_token := some access_token
      refresh_token := refresh_token
      expires_at := expires_at
      provider_account_id := provider_account_id
      extra_data := extra_data
      updated_at := now }

/-- The fresh row `connect_dropbox_with_tokens` inserts when none exists
(`dropbox_service.py` lines 86-99). -/
def dropboxConnectFresh (now : Nat) (access_token : String)
    (refresh_token : Option String) (expires_at : Option Nat)
    (provider_account_id : Option String) (extra_data : Option String)
    (uid : String) : Account :=
  { user_id := uid, provider := "dropbox"
    provider_account_id := provider_account_id
    access_token := some access_token
    refresh_token := refresh_token
    expires_at := expires_at
    extra_data := extra_data
    created_at := now, updated_at := now }

/-- `DropboxService.connect_dropbox_with_tokens` (`dropbox_service.py`
lines 23-102).  The `expires_in` ISO string is modelled post-parse as
`expires_at : Option Nat`; the fetched user-info blob is the
`provider_account_id`/`extra_data` parameters. -/
def connect_dropbox_with_tokens (now : Nat) (access_token : String)
    (refresh_token : Option String) (expires_at : Option Nat)
    (provider_account_id : Option String) (extra_data : Option String)
    (user_id : Option String) (db : List Account) :
    Except String (Account × List Account) :=
  if access_token == "" then .error "Access token is required"
  else if !strTruthy user_id then .error "User ID is required"
  else
    let uid := user_id.getD ""
    .ok (upsert_account db uid "dropbox"
      (dropboxConnectUpdate now access_token refresh_token expires_at
        provider_account_id extra_data)
      (dropboxConnectFresh now access_token refresh_token expires_at
        provider_account_id extra_data uid))

/-- `expires_at = datetime.utcnow() + timedelta(seconds=expires_in) if
expires_in else None` (`integrations_service.py` lines 184-186,
`one_drive_service.py` lines 32-34): `None` and `0` are falsy. -/
def expiresAtFromExpiresIn (now : Nat) (expires_in : Option Nat) :
    Option Nat :=
  match expires_in with
  | some n => if n ≠ 0 then some (now + n) else none
  | none => none

/-- The in-place update `connect_google_drive_with_tokens` applies to an
existing row (`integrations_service.py` lines 219-232): like Dropbox,
except the stored `refresh_token` is kept when the provided one is
falsy. -/
def googleConnectUpdate (now : Nat) (access_token : String)
    (refresh_token : Option String) (expires_at : Option Nat)
    (provider_account_id : Option String) (extra_data : Option String)
    (existing : Account) : Account :=
  { existing with
      access_token := some access_token
      refresh_token := if strTruthy refresh_token then
        refresh_token else existing.refresh_token
      expires_at := expires_at
      provider_account_id := provider_account_id
      extra_data := extra_data
      updated_at := now }

/-- The fresh row `connect_google_drive_with_tokens` inserts
(`integrations_service.py` lines 234-247). -/
def googleConnectFresh (now : Nat) (access_token : String)
    (refresh_token : Option String) (expires_at : Option Nat)
    (provider_account_id : Option String) (extra_data : Option String)
    (uid : String) : Account :=
  { user_id := uid, provider := "google_drive"
    provider_account_id := provider_account_id
    access_token := some access_token
    refresh_token := refresh_token
    expires_at := expires_at
    extra_data := extra_data
    created_at := now, updated_at := now }

/-- `IntegrationService.connect_google_drive_with_tokens`
(`integrations_service.py` lines 170-250).  `expires_at` is `now +
expires_in` only when `expires_in` is truthy (non-zero); on update the
stored `refresh_token` is kept when the new one is falsy
(`refresh_token or existing_account.refresh_token`, line 222). -/
def connect_google_drive_with_tokens (now : Nat) (access_token : String)
    (refresh_token : Option String) (expires_in : Option Nat)
    (provider_account_id : Option String) (extra_data : Option String)
    (user_id : Option String) (db : List Account) :
    Except String (Account × List Account) :=
  if access_token == "" then .error "Access token is required"
  else
    let expires_at := expiresAtFromExpiresIn now expires_in
    if !strTruthy user_id then .error "User ID is required"
    else
      let uid := user_id.getD ""
      .ok (upsert_account db uid "google_drive"
        (googleConnectUpdate now access_token refresh_token expires_at
          provider_account_id extra_data)
        (googleConnectFresh now access_token refresh_token expires_at
          provider_account_id extra_data uid))

/-- The in-place update `connect_one_drive_with_tokens` applies to an
existing row (`one_drive_service.py` lines 65-74): `refresh_token` is
never written. -/
def oneDriveConnectUpdate (now : Nat) (access_token : String)
    (expires_at : Option Nat) (provider_account_id : Option String)
    (extra_data : Option String) (existing : Account) : Account :=
  { existing with
      access_token := some access_token
      expires_at := expires_at
      provider_account_id := provider_account_id
      extra_data := extra_data
      updated_at := now }

/-- The fresh row `connect_one_drive_with_tokens` inserts
(`one_drive_service.py` lines 76-87); no `refresh_token` field is
set. -/
def oneDriveConnectFresh (now : Nat) (access_token : String)
    (expires_at : Option Nat) (provider_account_id : Option String)
    (extra_data : Option String) (uid : String) : Account :=
  { user_id := uid, provider := "one_drive"
    provider_account_id := provider_account_id
    access_token := some access_token
    expires_at := expires_at
    extra_data := extra_data
    created_at := now, updated_at := now }

/-- `OneDriveService.connect_one_drive_with_tokens`
(`one_drive_service.py` lines 19-90).  `expires_at` is `now +
expires_in` only when `expires_in` is truthy; neither the update nor the
insert path ever writes a `refresh_token`. -/
def connect_one_drive_with_tokens (now : Nat) (access_token : String)
    (expires_in : Option Nat) (provider_account_id : Option String)
    (extra_data : Option String) (user_id : Option String)
    (db : List Account) : Except String (Account × List Account) :=
  if access_token == "" then .error "Access token is required"
  else
    let expires_at := expiresAtFromExpiresIn now expires_in
    if !strTruthy user_id then .error "User ID is required"
    else
      let uid := user_id.getD ""
      .ok (upsert_account db uid "one_drive"
        (oneDriveConnectUpdate now access_token expires_at
          provider_account_id extra_data)
        (oneDriveConnectFresh now access_token expires_at
          provider_account_id extra_data uid))

/-- Replacing the first matching row with another matching row preserves
the row count for the pair. -/
theorem countAccounts_updateFirst (db : List Account) (uid prov : String)
    (a2 : Account) (h : accountKey uid prov a2 = true) :
    countAccounts (updateFirst db uid prov a2) uid prov =
      countAccounts db uid prov := by
  induction db with
  | nil => rfl
  | cons a rest ih =>
      by_cases ha : accountKey uid prov a
      · simp [updateFirst, countAccounts, ha, h, List.filter]
      · simp only [updateFirst, ha]
        simp only [countAccounts, List.filter] at ih ⊢
        simp [ha, ih]

/-- `updateFirst` never changes the number of stored rows. -/
theorem length_updateFirst (db : List Account) (uid prov : String)
    (a2 : Account) :
    (updateFirst db uid prov a2).length = db.length := by
  induction db with
  | nil => rfl
  | cons a rest ih =>
      by_cases ha : accountKey uid prov a <;> simp [updateFirst, ha, ih]

/-- No stored row for the pair means a zero count. -/
theorem countAccounts_eq_zero_of_find_none (db : List Account)
    (uid prov : String) (h : findAccount db uid prov = none) :
    countAccounts db uid prov = 0 := by
  rw [countAccounts, List.length_eq_zero, List.filter_eq_nil_iff]
  intro a ha
  have := List.find?_eq_none.mp h a ha
  simpa using this

/-- A found row contributes to the count. -/
theorem countAccounts_pos_of_find_some (db : List Account)
    (uid prov : String) (ex : Account)
    (h : findAccount db uid prov = some ex) :
    0 < countAccounts db uid prov := by
  have hmem : ex ∈ db := List.mem_of_find?_eq_some h
  have hkey : accountKey uid prov ex = true := List.find?_some h
  have : ex ∈ db.filter (accountKey uid prov) :=
    List.mem_filter.mpr ⟨hmem, hkey⟩
  exact List.length_pos.mpr (List.ne_nil_of_mem this)

/-- Generic upsert contract: with an updater preserving the row's key
and a fresh row carrying the key, an upsert leaves exactly one row for
the pair (given the invariant held before), updates in place when a row
existed, and appends exactly the fresh row otherwise. -/
theorem upsert_account_spec (db : List Account) (uid prov : String)
    (update : Account → Account) (fresh : Account)
    (hupd : ∀ a, accountKey uid prov a = true →
      accountKey uid prov (update a) = true)
    (hfresh : accountKey uid prov fresh = true)
    (hinv : countAccounts db uid prov ≤ 1) :
    countAccounts (upsert_account db uid prov update fresh).2 uid prov = 1 ∧
    (findAccount db uid prov = none →
      upsert_account db uid prov update fresh = (fresh, db ++ [fresh])) ∧
    (∀ ex, findAccount db uid prov = some ex →
      upsert_account db uid prov update fresh =
        (update ex, updateFirst db uid prov (update ex)) ∧
      (upsert_account db uid prov update fresh).2.length = db.length) := by
  cases hf : findAccount db uid prov with
  | none =>
      refine ⟨?_, fun _ => by simp [upsert_account, hf], fun ex hex => by
        simp [hf] at hex⟩
      have h0 := countAccounts_eq_zero_of_find_none db uid prov hf
      simp [upsert_account, hf, countAccounts, List.filter_append, hfresh]
      simpa [countAccounts] using h0
  | some ex =>
      have hkey : accountKey uid prov ex = true := List.find?_some hf
      have hcnt := countAccounts_updateFirst db uid prov (update ex)
        (hupd ex hkey)
      have hpos := countAccounts_pos_of_find_some db uid prov ex hf
      refine ⟨?_, fun hn => by simp [hf] at hn, fun ex2 hex2 => ?_⟩
      · simp [upsert_account, hf, hcnt]
        omega
      · have : ex2 = ex := (Option.some_inj.mp hex2).symm
        subst this
        exact ⟨by simp [upsert_account, hf], by
          simp [upsert_account, hf, length_updateFirst]⟩

/-- C10 counterexample: the generic `IntegrationService.connect_account`
inserts unconditionally, so a second connect for the same `(user_id,
provider)` pair leaves two stored rows instead of updating the first in
place. -/
theorem connect_upsert_counterexample :
    (let r1 := connect_account 0 "u1" "dropbox" none (some "tok1") none none []
     let r2 := connect_account 1 "u1" "dropbox" none (some "tok2") none none r1.2
     countAccounts r2.2 "u1" "dropbox" = 2) := by
  rfl

/-- Existential packaging of `upsert_account_spec` in the shape the
connect theorems need. -/
theorem connect_via_upsert_spec (db : List Account) (uid prov : String)
    (update : Account → Account) (fresh : Account)
    (hupd : ∀ a, accountKey uid prov a = true →
      accountKey uid prov (update a) = true)
    (hfresh : accountKey uid prov fresh = true)
    (hinv : countAccounts db uid prov ≤ 1) :
    ∃ acct db2,
      Except.ok (ε := String) (upsert_account db uid prov update fresh) =
        .ok (acct, db2) ∧
      countAccounts db2 uid prov = 1 ∧
      (findAccount db uid prov = none → acct = fresh ∧ db2 = db ++ [acct]) ∧
      (∀ ex, findAccount db uid prov = some ex →
        acct = update ex ∧ db2.length = db.length) := by
  have spec := upsert_account_spec db uid prov update fresh hupd hfresh hinv
  cases hf : findAccount db uid prov with
  | none =>
      have h2 := spec.2.1 hf
      refine ⟨fresh, db ++ [fresh], by rw [h2], ?_, fun _ => ⟨rfl, rfl⟩,
        fun ex hex => by simp [hf] at hex⟩
      have h1 := spec.1
      rw [h2] at h1
      exact h1
  | some ex1 =>
      have h2 := (spec.2.2 ex1 hf).1
      have hlen := (spec.2.2 ex1 hf).2
      refine ⟨update ex1, updateFirst db uid prov (update ex1),
        by rw [h2], ?_, fun hn => by simp [hf] at hn, fun ex hex => ?_⟩
      · have h1 := spec.1
        rw [h2] at h1
        exact h1
      · have hee : ex = ex1 := (Option.some_inj.mp hex).symm
        subst hee
        refine ⟨rfl, ?_⟩
        rw [h2] at hlen
        exact hlen

/-- C10 (amended): the provider-specific token-connect operations
(Dropbox, Google Drive, OneDrive) preserve at most one `ExternalAccount`
per `(user_id, provider)` pair: the first successful connect appends the
new row, and every subsequent connect for the same pair updates that
same row in place — overwriting `access_token`, `expires_at`,
`provider_account_id`, `extra_data` and `updated_at`; `refresh_token` is
overwritten unconditionally by Dropbox, kept when no new one is provided
by Google Drive, and never written by OneDrive — rather than inserting a
second row.  (The generic `IntegrationService.connect_account` does
insert a second row, per the counterexample.) -/
theorem connect_upsert_invariant :
    (∀ (now : Nat) (access_token : String) (refresh_token : Option String)
        (expires_at : Option Nat) (pid extra : Option String)
        (uid : String) (db : List Account),
      access_token ≠ "" → uid ≠ "" → countAccounts db uid "dropbox" ≤ 1 →
      ∃ acct db2,
        connect_dropbox_with_tokens now access_token refresh_token
          expires_at pid extra (some uid) db = .ok (acct, db2) ∧
        countAccounts db2 uid "dropbox" = 1 ∧
        (findAccount db uid "dropbox" = none →
          acct = dropboxConnectFresh now access_token refresh_token
            expires_at pid extra uid ∧ db2 = db ++ [acct]) ∧
        (∀ ex, findAccount db uid "dropbox" = some ex →
          acct = dropboxConnectUpdate now access_token refresh_token
            expires_at pid extra ex ∧ db2.length = db.length)) ∧
    (∀ (now : Nat) (access_token : String) (refresh_token : Option String)
        (expires_in : Option Nat) (pid extra : Option String)
        (uid : String) (db : List Account),
      access_token ≠ "" → uid ≠ "" →
      countAccounts db uid "google_drive" ≤ 1 →
      ∃ acct db2,
        connect_google_drive_with_tokens now access_token refresh_token
          expires_in pid extra (some uid) db = .ok (acct, db2) ∧
        countAccounts db2 uid "google_drive" = 1 ∧
        (findAccount db uid "google_drive" = none →
          acct = googleConnectFresh now access_token refresh_token
            (expiresAtFromExpiresIn now expires_in) pid extra uid ∧
          db2 = db ++ [acct]) ∧
        (∀ ex, findAccount db uid "google_drive" = some ex →
          acct = googleConnectUpdate now access_token refresh_token
            (expiresAtFromExpiresIn now expires_in) pid extra ex ∧
          db2.length = db.length)) ∧
    (∀ (now : Nat) (access_token : String) (expires_in : Option Nat)
        (pid extra : Option String) (uid : String) (db : List Account),
      access_token ≠ "" → uid ≠ "" →
      countAccounts db uid "one_drive" ≤ 1 →
      ∃ acct db2,
        connect_one_drive_with_tokens now access_token expires_in pid
          extra (some uid) db = .ok (acct, db2) ∧
        countAccounts db2 uid "one_drive" = 1 ∧
        (findAccount db uid "one_drive" = none →
          acct = oneDriveConnectFresh now access_token
            (expiresAtFromExpiresIn now expires_in) pid extra uid ∧
          db2 = db ++ [acct]) ∧
        (∀ ex, findAccount db uid "one_drive" = some ex →
          acct = oneDriveConnectUpdate now access_token
            (expiresAtFromExpiresIn now expires_in) pid extra ex ∧
          db2.length = db.length)) := by
  refine ⟨?_, ?_, ?_⟩
  · intro now access_token refresh_token expires_at pid extra uid db
      hat huid hinv
    have hconn : connect_dropbox_with_tokens now access_token
        refresh_token expires_at pid extra (some uid) db =
        .ok (upsert_account db uid "dropbox"
          (dropboxConnectUpdate now access_token refresh_token expires_at
            pid extra)
          (dropboxConnectFresh now access_token refresh_token expires_at
            pid extra uid)) := by
      simp [connect_dropbox_with_tokens, hat, strTruthy, huid]
    rw [hconn]
    exact connect_via_upsert_spec db uid "dropbox" _ _
      (fun a h => by simpa [accountKey, dropboxConnectUpdate] using h)
      (by simp [accountKey, dropboxConnectFresh]) hinv
  · intro now access_token refresh_token expires_in pid extra uid db
      hat huid hinv
    have hconn : connect_google_drive_with_tokens now access_token
        refresh_token expires_in pid extra (some uid) db =
        .ok (upsert_account db uid "google_drive"
          (googleConnectUpdate now access_token refresh_token
            (expiresAtFromExpiresIn now expires_in) pid extra)
          (googleConnectFresh now access_token refresh_token
            (expiresAtFromExpiresIn now expires_in) pid extra uid)) := by
      simp [connect_google_drive_with_tokens, hat, strTruthy, huid]
    rw [hconn]
    exact connect_via_upsert_spec db uid "google_drive" _ _
      (fun a h => by simpa [accountKey, googleConnectUpdate] using h)
      (by simp [accountKey, googleConnectFresh]) hinv
  · intro now access_token expires_in pid extra uid db hat huid hinv
    have hconn : connect_one_drive_with_tokens now access_token
        expires_in pid extra (some uid) db =
        .ok (upsert_account db uid "one_drive"
          (oneDriveConnectUpdate now access_token
            (expiresAtFromExpiresIn now expires_in) pid extra)
          (oneDriveConnectFresh now access_token
            (expiresAtFromExpiresIn now expires_in) pid extra uid)) := by
      simp [connect_one_drive_with_tokens, hat, strTruthy, huid]
    rw [hconn]
    exact connect_via_upsert_spec db uid "one_drive" _ _
      (fun a h => by simpa [accountKey, oneDriveConnectUpdate] using h)
      (by simp [accountKey, oneDriveConnectFresh]) hinv

/-- Witness for `connect_upsert_invariant`: connecting Dropbox twice for
the same user leaves exactly one stored row, with the second connect
updating in place. -/
theorem connect_upsert_invariant_witness :
    ∃ acct db2,
      connect_dropbox_with_tokens 0 "tok1" (some "rt") (some 100) none
        none (some "u1") [] = .ok (acct, db2) ∧
      countAccounts db2 "u1" "dropbox" = 1 ∧
      ∃ acct2 db3,
        connect_dropbox_with_tokens 5 "tok2" none (some 200) none none
          (some "u1") db2 = .ok (acct2, db3) ∧
        countAccounts db3 "u1" "dropbox" = 1 ∧ db3.length = db2.length := by
  obtain ⟨acct, db2, hconn, hcount, hnone, -⟩ :=
    connect_upsert_invariant.1 0 "tok1" (some "rt") (some 100) none none
      "u1" [] (by decide) (by decide) (by decide)
  have hfind : findAccount [] "u1" "dropbox" = none := rfl
  obtain ⟨hacct, hdb2⟩ := hnone hfind
  have hdb2v : db2 = [dropboxConnectFresh 0 "tok1" (some "rt") (some 100)
      none none "u1"] := by rw [hdb2, hacct]; rfl
  have hinv2 : countAccounts db2 "u1" "dropbox" ≤ 1 := by
    rw [hcount]
  obtain ⟨acct2, db3, hconn2, hcount2, -, hsome⟩ :=
    connect_upsert_invariant.1 5 "tok2" none (some 200) none none
      "u1" db2 (by decide) (by decide) hinv2
  have hfind2 : findAccount db2 "u1" "dropbox" =
      some (dropboxConnectFresh 0 "tok1" (some "rt") (some 100)
        none none "u1") := by
    rw [hdb2v]; rfl
  obtain ⟨-, hlen⟩ := hsome _ hfind2
  exact ⟨acct, db2, hconn, hcount, acct2, db3, hconn2, hcount2, hlen⟩

end Backend
